import Mathlib

/-!
Shallow embedding of the joint classification, constraint synthesis,
axis and limit extraction, and metadata writing logic of the file
joints.py of the phobos repository.  Blender data is modelled as plain
values: a link carries one bone with a direction vector, an ordered list
of bone constraints and a string keyed metadata store.  Python floats are
modelled by exact rationals; the constant math.pi is modelled by the exact
rational value of the IEEE-754 double 3.141592653589793.
-/

namespace Phobos

/-- A 3-vector with rational components; Blender float vectors are modelled
by exact rationals. -/
structure Vec3 where
  x : ℚ
  y : ℚ
  z : ℚ
deriving DecidableEq

/-- One entry of the constraint collection of the single pose bone of a link.
`ctype` is the Blender constraint type tag.  A LIMIT_LOCATION entry uses the
`use_min_*` and `use_max_*` flags, a LIMIT_ROTATION entry uses the
`use_limit_*` flags; both share the numeric bound fields, as in the Blender
RNA structs.  A freshly added constraint has all flags off, all bounds zero
and owner space WORLD, which are the Blender defaults relied upon by
setJointConstraints (joints.py lines 150 to 271). -/
structure Constraint where
  ctype : String
  use_min_x : Bool := false
  use_min_y : Bool := false
  use_min_z : Bool := false
  use_max_x : Bool := false
  use_max_y : Bool := false
  use_max_z : Bool := false
  use_limit_x : Bool := false
  use_limit_y : Bool := false
  use_limit_z : Bool := false
  min_x : ℚ := 0
  max_x : ℚ := 0
  min_y : ℚ := 0
  max_y : ℚ := 0
  min_z : ℚ := 0
  max_z : ℚ := 0
  owner_space : String := "WORLD"
deriving DecidableEq

/-- A value stored in the string keyed metadata store of a link (a Blender
ID property): a string, a number or a boolean. -/
inductive MVal where
  | s : String → MVal
  | q : ℚ → MVal
  | b : Bool → MVal
deriving DecidableEq

/-- The metadata store of a link, with insertion order kept. -/
abbrev Meta := List (String × MVal)

/-- Write a key in the metadata store: overwrite in place when the key is
present, append otherwise (Python mapping assignment `joint[key] = value`). -/
def setMeta : Meta → String → MVal → Meta
  | [], k, v => [(k, v)]
  | (k', v') :: rest, k, v =>
      if k' = k then (k, v) :: rest else (k', v') :: setMeta rest k v

/-- Read a key from the metadata store. -/
def getMeta : Meta → String → Option MVal
  | [], _ => none
  | (k', v') :: rest, k => if k' = k then some v' else getMeta rest k

/-- A link: the armature object representing a joint.  It has a name, the
phobostype tag, exactly one bone whose direction vector is `boneVector`
(joint.data.bones[0].vector), the constraint collection of the corresponding
pose bone (joint.pose.bones[0].constraints), and the metadata store. -/
structure Link where
  name : String
  phobostype : String
  boneVector : Vec3
  constraints : List Constraint
  meta : Meta
deriving DecidableEq

/-- The axis value returned by getJointConstraints: either the normalized
bone direction vector of the given vector (vector.normalized() in object
space, joints.py lines 97 and 114), or an exact vector built from the
freeloc indicator list (line 125). -/
inductive Axis where
  | boneNormalized : Vec3 → Axis
  | unit : Vec3 → Axis
deriving DecidableEq

/-- Result of getJointConstraints: the returned pair (axis, limits), or the
message of the raised exception. -/
inductive GetResult where
  | ok : Option Axis → Option (List ℚ) → GetResult
  | error : String → GetResult
deriving DecidableEq

/-- Number of true entries of a triple of booleans (Python sum over a list
of three booleans). -/
def cnt3 (b : Bool × Bool × Bool) : Nat :=
  b.1.toNat + b.2.1.toNat + b.2.2.toNat

/-- Python int(b) for a boolean. -/
def boolToQ (b : Bool) : ℚ := if b then 1 else 0

/-- The exact rational value of the IEEE-754 double math.pi,
3.141592653589793115997963468544185161590576171875. -/
def pythonPi : ℚ := 884279719003555 / 281474976710656

/-- math.radians, on the exact rational model of math.pi. -/
def radiansQ (x : ℚ) : ℚ := x * pythonPi / 180

/-- The per location constraint locked list of deriveJointType
(joints.py lines 56 to 58): an axis counts as locked when its minimum bound
is active and the minimum equals the maximum.  Note that the activity of the
maximum bound is not consulted here. -/
def clocOf (c : Constraint) : Bool × Bool × Bool :=
  (c.use_min_x && decide (c.min_x = c.max_x),
   c.use_min_y && decide (c.min_y = c.max_y),
   c.use_min_z && decide (c.min_z = c.max_z))

/-- The per rotation constraint flag list of deriveJointType
(joints.py lines 61 to 63): an axis is flagged when its limit is active and
the limited range is not the degenerate range (0, 0). -/
def crotOf (c : Constraint) : Bool × Bool × Bool :=
  (c.use_limit_x && (decide (c.min_x ≠ 0) || decide (c.max_x ≠ 0)),
   c.use_limit_y && (decide (c.min_y ≠ 0) || decide (c.max_y ≠ 0)),
   c.use_limit_z && (decide (c.min_z ≠ 0) || decide (c.max_z ≠ 0)))

/-- The freeloc list of getJointConstraints (joints.py lines 108 to 110):
an axis is marked when both its bounds are active and the minimum equals
the maximum.  The source calls the marked axes free although the predicate
describes a doubly bounded degenerate range; the inverted naming is kept. -/
def freelocOf (c : Constraint) : Bool × Bool × Bool :=
  (c.use_min_x && c.use_max_x && decide (c.min_x = c.max_x),
   c.use_min_y && c.use_max_y && decide (c.min_y = c.max_y),
   c.use_min_z && c.use_max_z && decide (c.min_z = c.max_z))

/-- One step of the scan of the constraint collection performed by
deriveJointType (joints.py lines 54 to 63): the last LIMIT_LOCATION entry
determines cloc, the last LIMIT_ROTATION entry determines limrot (and with
it crot); entries of other types are ignored. -/
def scanStep (st : Option (Bool × Bool × Bool) × Option Constraint)
    (c : Constraint) : Option (Bool × Bool × Bool) × Option Constraint :=
  if c.ctype = "LIMIT_LOCATION" then (some (clocOf c), st.2)
  else if c.ctype = "LIMIT_ROTATION" then (st.1, some c)
  else st

/-- The decision table of deriveJointType (joints.py lines 64 to 78),
as a function of the scanned cloc list and the last rotation constraint.
When no location constraint was seen the type stays floating; ncloc then
selects the row, with ncrot refining the fully locked case. -/
def decisionTable (cloc : Option (Bool × Bool × Bool))
    (limrot : Option Constraint) : String :=
  match cloc with
  | none => "floating"
  | some cl =>
    if cnt3 cl = 3 then
      match limrot with
      | none => "floating"
      | some lr =>
        let ncrot := lr.use_limit_x.toNat + lr.use_limit_y.toNat + lr.use_limit_z.toNat
        if ncrot = 3 then
          if 0 < cnt3 (crotOf lr) then "revolute" else "fixed"
        else if ncrot = 2 then "continuous"
        else "floating"
    else if cnt3 cl = 2 then "prismatic"
    else if cnt3 cl = 1 then "planar"
    else "floating"

/-- deriveJointType (joints.py lines 45 to 84): scan the constraint
collection of the single pose bone, then classify.  The returned pair is
(joint type, crot flag list); the function is pure on these values.  The
adjust mode only rewrites the stored type metadata when it disagrees and
never changes the returned pair, so it is not part of this value level
model. -/
def deriveJointType (joint : Link) : String × Option (Bool × Bool × Bool) :=
  let st := joint.constraints.foldl scanStep (none, none)
  (decisionTable st.1 st.2, st.2.map crotOf)

/-- getJointConstraint (joints.py lines 137 to 142): the last constraint of
the collection whose type tag matches. -/
def getJointConstraint (joint : Link) (t : String) : Option Constraint :=
  joint.constraints.foldl (fun con c => if c.ctype = t then some c else con) none

/-- getJointConstraints (joints.py lines 87 to 134).  Returns the pair
(axis, limits); a raised exception is modelled by the error constructor.
For a revolute or continuous type crot is never none (the classifier only
produces these types after seeing a rotation constraint), hence the rotation
constraint lookup always succeeds on reachable inputs; the error value on
the unreachable none branch stands for the Python attribute error that a
flagged axis would trigger there. -/
def getJointConstraints (joint : Link) : GetResult :=
  let d := deriveJointType joint
  let jt := d.1
  let crot := d.2
  if jt = "floating" ∨ jt = "fixed" then .ok none none
  else if (jt = "revolute" ∨ jt = "continuous") ∧ crot.isSome then
    match getJointConstraint joint "LIMIT_ROTATION" with
    | none => .error "AttributeError"
    | some c =>
      let limits : Option (List ℚ) :=
        match crot with
        | some cr =>
          if cr.1 then some [c.min_x, c.max_x]
          else if cr.2.1 then some [c.min_y, c.max_y]
          else if cr.2.2 then some [c.min_z, c.max_z]
          else none
        | none => none
      .ok (some (Axis.boneNormalized joint.boneVector)) limits
  else
    match getJointConstraint joint "LIMIT_LOCATION" with
    | none => .error ("JointTypeError: under-defined constraints in joint (" ++ joint.name ++ ").")
    | some c =>
      let fl := freelocOf c
      if jt = "prismatic" then
        if cnt3 fl = 2 then
          .ok (some (Axis.boneNormalized joint.boneVector))
            (if fl.1 then some [c.min_x, c.max_x]
             else if fl.2.1 then some [c.min_y, c.max_y]
             else if fl.2.2 then some [c.min_z, c.max_z]
             else none)
        else .error ("JointTypeError: under-defined constraints in joint (" ++ joint.name ++ ").")
      else if jt = "planar" then
        if cnt3 fl = 1 then
          .ok (some (Axis.unit ⟨boolToQ fl.1, boolToQ fl.2.1, boolToQ fl.2.2⟩))
            (if fl.1 then some [c.min_y, c.max_y, c.min_z, c.max_z]
             else if fl.2.1 then some [c.min_x, c.max_x, c.min_z, c.max_z]
             else if fl.2.2 then some [c.min_x, c.max_x, c.min_y, c.max_y]
             else none)
        else .error ("JointTypeError: under-defined constraints in joint (" ++ joint.name ++ ").")
      else .ok none none

/-- The constraint removal loop of setJointConstraints (joints.py lines
147 to 148) iterates the live collection by index while removing the
current entry, exactly as a Python for loop over a list that is mutated in
the body: at step i the element at index i of the current list is removed
and the index advances, until the index reaches the current length.  The
fuel argument bounds the number of steps by the initial length, which is
never reached. -/
def removeLoopFuel : Nat → Nat → List Constraint → List Constraint
  | 0, _, cs => cs
  | n + 1, i, cs => if i < cs.length then removeLoopFuel n (i + 1) (cs.eraseIdx i) else cs

/-- The effect of the removal loop on the whole collection. -/
def removeLoop (cs : List Constraint) : List Constraint :=
  removeLoopFuel cs.length 0 cs

/-- The LIMIT_LOCATION constraint installed for a revolute joint
(joints.py lines 152 to 160): all six bounds active, all bound values left
at the Blender default 0, owner space LOCAL. -/
def revoluteLoc : Constraint :=
  { ctype := "LIMIT_LOCATION",
    use_min_x := true, use_min_y := true, use_min_z := true,
    use_max_x := true, use_max_y := true, use_max_z := true,
    owner_space := "LOCAL" }

/-- The LIMIT_ROTATION constraint installed for a revolute joint
(joints.py lines 162 to 173): x and z limited to 0, y limited to
(lower, upper). -/
def revoluteRot (lower upper : ℚ) : Constraint :=
  { ctype := "LIMIT_ROTATION",
    use_limit_x := true, use_limit_y := true, use_limit_z := true,
    min_x := 0, max_x := 0, min_y := lower, max_y := upper,
    min_z := 0, max_z := 0, owner_space := "LOCAL" }

/-- The LIMIT_LOCATION constraint installed for a continuous joint
(joints.py lines 176 to 184). -/
def continuousLoc : Constraint :=
  { ctype := "LIMIT_LOCATION",
    use_min_x := true, use_min_y := true, use_min_z := true,
    use_max_x := true, use_max_y := true, use_max_z := true,
    owner_space := "LOCAL" }

/-- The LIMIT_ROTATION constraint installed for a continuous joint
(joints.py lines 186 to 194): x and z limited to 0, y left free. -/
def continuousRot : Constraint :=
  { ctype := "LIMIT_ROTATION",
    use_limit_x := true, use_limit_z := true,
    min_x := 0, max_x := 0, min_z := 0, max_z := 0,
    owner_space := "LOCAL" }

/-- The LIMIT_LOCATION constraint installed for a prismatic joint
(joints.py lines 197 to 211): all bounds active, then the y bounds are
deactivated again when lower equals upper, otherwise the y bounds become
(lower, upper). -/
def prismaticLoc (lower upper : ℚ) : Constraint :=
  if lower = upper then
    { ctype := "LIMIT_LOCATION",
      use_min_x := true, use_min_y := false, use_min_z := true,
      use_max_x := true, use_max_y := false, use_max_z := true,
      owner_space := "LOCAL" }
  else
    { ctype := "LIMIT_LOCATION",
      use_min_x := true, use_min_y := true, use_min_z := true,
      use_max_x := true, use_max_y := true, use_max_z := true,
      min_y := lower, max_y := upper,
      owner_space := "LOCAL" }

/-- The LIMIT_ROTATION constraint installed for a prismatic joint
(joints.py lines 213 to 224): all three axes limited to 0. -/
def prismaticRot : Constraint :=
  { ctype := "LIMIT_ROTATION",
    use_limit_x := true, use_limit_y := true, use_limit_z := true,
    min_x := 0, max_x := 0, min_y := 0, max_y := 0,
    min_z := 0, max_z := 0, owner_space := "LOCAL" }

/-- The LIMIT_LOCATION constraint installed for a fixed joint
(joints.py lines 227 to 235). -/
def fixedLoc : Constraint :=
  { ctype := "LIMIT_LOCATION",
    use_min_x := true, use_min_y := true, use_min_z := true,
    use_max_x := true, use_max_y := true, use_max_z := true,
    owner_space := "LOCAL" }

/-- The LIMIT_ROTATION constraint installed for a fixed joint
(joints.py lines 237 to 248). -/
def fixedRot : Constraint :=
  { ctype := "LIMIT_ROTATION",
    use_limit_x := true, use_limit_y := true, use_limit_z := true,
    min_x := 0, max_x := 0, min_y := 0, max_y := 0,
    min_z := 0, max_z := 0, owner_space := "LOCAL" }

/-- The LIMIT_LOCATION constraint installed for a planar joint
(joints.py lines 254 to 258): only the y bounds are activated. -/
def planarLoc : Constraint :=
  { ctype := "LIMIT_LOCATION",
    use_min_y := true, use_max_y := true,
    owner_space := "LOCAL" }

/-- The LIMIT_ROTATION constraint installed for a planar joint
(joints.py lines 260 to 271). -/
def planarRot : Constraint :=
  { ctype := "LIMIT_ROTATION",
    use_limit_x := true, use_limit_y := true, use_limit_z := true,
    min_x := 0, max_x := 0, min_y := 0, max_y := 0,
    min_z := 0, max_z := 0, owner_space := "LOCAL" }

/-- The joint types handled by the dispatch of setJointConstraints. -/
def knownJointTypes : List String :=
  ["revolute", "continuous", "prismatic", "fixed", "floating", "planar"]

/-- setJointConstraints (joints.py lines 145 to 275).  First the removal
loop runs on the constraint collection; then, only when the phobostype of
the object is link, the per type constraint pair is appended (each
constraint_add call appends a fresh constraint which getJointConstraint,
being a last match lookup, then finds and configures) and the joint type
string is written to the metadata store.  The floating branch and the
unknown type branch install nothing; the unknown branch only prints an
error message and no exception is raised, which is reflected by the
function being total. -/
def setJointConstraints (joint : Link) (jointtype : String)
    (lower : ℚ := 0) (upper : ℚ := 0) : Link :=
  let cs := removeLoop joint.constraints
  if joint.phobostype = "link" then
    let installed : List Constraint :=
      if jointtype = "revolute" then [revoluteLoc, revoluteRot lower upper]
      else if jointtype = "continuous" then [continuousLoc, continuousRot]
      else if jointtype = "prismatic" then [prismaticLoc lower upper, prismaticRot]
      else if jointtype = "fixed" then [fixedLoc, fixedRot]
      else if jointtype = "floating" then []
      else if jointtype = "planar" then [planarLoc, planarRot]
      else []
    { joint with constraints := cs ++ installed,
                 meta := setMeta joint.meta "joint/type" (MVal.s jointtype) }
  else
    { joint with constraints := cs }

/-- The operator inputs of DefineJointConstraintsOperator
(joints.py lines 284 to 320). -/
structure DefineJointConstraintsInput where
  passive : Bool
  degrees : Bool
  joint_type : String
  lower : ℚ
  upper : ℚ
  maxeffort : ℚ
  maxvelocity : ℚ

/-- The per link body of DefineJointConstraintsOperator.execute
(joints.py lines 324 to 343): unit conversion of the bounds, constraint
synthesis, then the metadata writes; the effort and velocity keys are only
written for a non fixed joint type, the passive key only when requested.
The update of the active object pointer of the interactive session has no
effect on the link values and is dropped. -/
def defineJointConstraintsOnLink (inp : DefineJointConstraintsInput)
    (link : Link) : Link :=
  let lower := if inp.degrees then radiansQ inp.lower else inp.lower
  let upper := if inp.degrees then radiansQ inp.upper else inp.upper
  let link := setJointConstraints link inp.joint_type lower upper
  let link :=
    if inp.joint_type ≠ "fixed" then
      { link with meta := setMeta (setMeta link.meta "joint/maxeffort" (MVal.q inp.maxeffort))
                            "joint/maxvelocity" (MVal.q inp.maxvelocity) }
    else link
  if inp.passive then { link with meta := setMeta link.meta "joint/passive" (MVal.b true) }
  else link

/-- DefineJointConstraintsOperator.execute over the whole selection. -/
def defineJointConstraintsExecute (inp : DefineJointConstraintsInput)
    (selected : List Link) : List Link :=
  selected.map (defineJointConstraintsOnLink inp)

/-- The operator inputs of AttachMotorOperator (joints.py lines 352 to 381). -/
structure AttachMotorInput where
  P : ℚ
  I : ℚ
  D : ℚ
  vmax : ℚ
  taumax : ℚ
  motortype : String

/-- The per link body of AttachMotorOperator.execute (joints.py lines 383
to 395): only objects of phobostype link are touched; the gain keys are
written only for the PID motor type; the maximum speed is stored as
vmax times 2 times math.pi and the maximum effort verbatim. -/
def attachMotorOnLink (inp : AttachMotorInput) (joint : Link) : Link :=
  if joint.phobostype = "link" then
    let m := joint.meta
    let m :=
      if inp.motortype = "PID" then
        setMeta (setMeta (setMeta m "motor/p" (MVal.q inp.P)) "motor/i" (MVal.q inp.I))
          "motor/d" (MVal.q inp.D)
      else m
    let m := setMeta m "motor/maxSpeed" (MVal.q (inp.vmax * 2 * pythonPi))
    let m := setMeta m "motor/maxEffort" (MVal.q inp.taumax)
    let m := setMeta m "motor/type" (MVal.s inp.motortype)
    { joint with meta := m }
  else joint

/-- AttachMotorOperator.execute over the whole selection. -/
def attachMotorExecute (inp : AttachMotorInput) (selected : List Link) : List Link :=
  selected.map (attachMotorOnLink inp)

/-- A fresh link: phobostype link, no constraints, empty metadata, bone
along the y axis. -/
def L0 : Link :=
  { name := "joint0", phobostype := "link", boneVector := ⟨0, 1, 0⟩,
    constraints := [], meta := [] }

/-- The rational -0.1, given in reduced form so that it evaluates inside
kernel level computation. -/
def negOneTenth : ℚ := ⟨-1, 10, by decide, by decide⟩

/-- The rational 0.1, given in reduced form so that it evaluates inside
kernel level computation. -/
def oneTenth : ℚ := ⟨1, 10, by decide, by decide⟩

/-- A LIMIT_LOCATION constraint whose x axis has the minimum bound active,
the maximum bound inactive and equal bound values. -/
def minOnlyLockedX : Constraint := { ctype := "LIMIT_LOCATION", use_min_x := true }

/-- A link whose only constraint is `minOnlyLockedX`. -/
def LminOnly : Link := { L0 with constraints := [minOnlyLockedX] }

/-- A fresh link after synthesizing a revolute joint with limits (0, 1). -/
def Lrev : Link := setJointConstraints L0 "revolute" 0 1

/-- Concrete motor operator inputs: vmax 1 rpm, taumax 2, PID gains 3, 4, 5. -/
def motorInp : AttachMotorInput :=
  { P := 3, I := 4, D := 5, vmax := 1, taumax := 2, motortype := "PID" }

/-- Concrete joint operator inputs with the fixed joint type and nonzero
effort and velocity values. -/
def fixedInp : DefineJointConstraintsInput :=
  { passive := false, degrees := false, joint_type := "fixed",
    lower := 0, upper := 0, maxeffort := 7, maxvelocity := 8 }

/-- The reduced form literal is the rational -0.1. -/
lemma negOneTenth_eq : negOneTenth = -(1 / 10 : ℚ) := by
  rw [negOneTenth, Rat.mk'_eq_divInt, Rat.divInt_eq_div]
  norm_num

/-- The reduced form literal is the rational 0.1. -/
lemma oneTenth_eq : oneTenth = (1 / 10 : ℚ) := by
  rw [oneTenth, Rat.mk'_eq_divInt, Rat.divInt_eq_div]
  norm_num

/-! ### Helper lemmas -/

/-- The removal loop never lengthens the collection. -/
lemma removeLoopFuel_length_le (n : Nat) :
    ∀ i cs, (removeLoopFuel n i cs).length ≤ cs.length := by
  induction n with
  | zero => intro i cs; simp [removeLoopFuel]
  | succ n ih =>
    intro i cs
    by_cases h : i < cs.length
    · calc (removeLoopFuel (n + 1) i cs).length
          = (removeLoopFuel n (i + 1) (cs.eraseIdx i)).length := by
            simp [removeLoopFuel, h]
        _ ≤ (cs.eraseIdx i).length := ih (i + 1) (cs.eraseIdx i)
        _ ≤ cs.length := (List.eraseIdx_sublist cs i).length_le
    · simp [removeLoopFuel, h]

/-- The removal loop only ever removes entries: its result is a sublist of
the collection it started from. -/
lemma removeLoopFuel_sublist (n : Nat) :
    ∀ i cs, (removeLoopFuel n i cs).Sublist cs := by
  induction n with
  | zero => intro i cs; simp [removeLoopFuel]
  | succ n ih =>
    intro i cs
    by_cases h : i < cs.length
    · have h1 : removeLoopFuel (n + 1) i cs = removeLoopFuel n (i + 1) (cs.eraseIdx i) := by
        simp [removeLoopFuel, h]
      rw [h1]
      exact (ih (i + 1) (cs.eraseIdx i)).trans (List.eraseIdx_sublist cs i)
    · simp [removeLoopFuel, h]

/-- The removal loop result is a sublist of the original collection. -/
lemma removeLoop_sublist (cs : List Constraint) : (removeLoop cs).Sublist cs :=
  removeLoopFuel_sublist cs.length 0 cs

/-- On a nonempty collection, the removal loop removes at least the first
entry, so the result is strictly shorter. -/
lemma removeLoop_length_lt (cs : List Constraint) (h : cs ≠ []) :
    (removeLoop cs).length < cs.length := by
  cases cs with
  | nil => exact absurd rfl h
  | cons c rest =>
    have h0 : 0 < (c :: rest).length := by simp
    have h1 : removeLoop (c :: rest)
        = removeLoopFuel rest.length 1 ((c :: rest).eraseIdx 0) := by
      simp [removeLoop, removeLoopFuel, h0]
    rw [h1]
    have h2 := removeLoopFuel_length_le rest.length 1 ((c :: rest).eraseIdx 0)
    simp only [List.eraseIdx_cons_zero] at h2 ⊢
    simp only [List.length_cons]
    omega

/-- Writing one key leaves the value stored at any other key unchanged. -/
lemma getMeta_setMeta_ne (m : Meta) (k k' : String) (v : MVal) (h : k' ≠ k) :
    getMeta (setMeta m k v) k' = getMeta m k' := by
  induction m with
  | nil => simp [setMeta, getMeta, Ne.symm h]
  | cons p rest ih =>
    by_cases hk : p.1 = k
    · simp [setMeta, hk, getMeta, Ne.symm h]
    · simp [setMeta, hk, getMeta, ih]

/-- Writing a key stores exactly the written value at that key. -/
lemma getMeta_setMeta_self (m : Meta) (k : String) (v : MVal) :
    getMeta (setMeta m k v) k = some v := by
  induction m with
  | nil => simp [setMeta, getMeta]
  | cons p rest ih =>
    by_cases hk : p.1 = k
    · simp [setMeta, hk, getMeta]
    · simp [setMeta, hk, getMeta, ih]

/-- The rotation component of the classifier scan is exactly the last
LIMIT_ROTATION lookup performed by getJointConstraint. -/
lemma scan_snd (cs : List Constraint) :
    ∀ a b, (cs.foldl scanStep (a, b)).2
      = cs.foldl (fun con c => if c.ctype = "LIMIT_ROTATION" then some c else con) b := by
  induction cs with
  | nil => intro a b; simp
  | cons c cs ih =>
    intro a b
    by_cases h1 : c.ctype = "LIMIT_LOCATION"
    · have h2 : ¬ c.ctype = "LIMIT_ROTATION" := by rw [h1]; decide
      simp [scanStep, h1, h2, ih]
    · by_cases h2 : c.ctype = "LIMIT_ROTATION" <;> simp [scanStep, h1, h2, ih]

/-- When the constraint collection ends with a location entry followed by a
rotation entry, the classifier scan sees exactly this pair, whatever came
before: the scan keeps only the last entry of each kind. -/
lemma scan_append_two (xs : List Constraint) (l r : Constraint)
    (hl : l.ctype = "LIMIT_LOCATION") (hr : r.ctype = "LIMIT_ROTATION") :
    (xs ++ [l, r]).foldl scanStep (none, none) = (some (clocOf l), some r) := by
  have hrl : ¬ r.ctype = "LIMIT_LOCATION" := by rw [hr]; decide
  rw [List.foldl_append]
  rcases (xs.foldl scanStep (none, none)) with ⟨a, b⟩
  simp [scanStep, hl, hr, hrl]

/-- The derived type of a link whose collection ends with a location entry
followed by a rotation entry is read off the decision table at this pair. -/
lemma deriveJointType_of_append (M : Link) (xs : List Constraint) (l r : Constraint)
    (hM : M.constraints = xs ++ [l, r])
    (hl : l.ctype = "LIMIT_LOCATION") (hr : r.ctype = "LIMIT_ROTATION") :
    deriveJointType M = (decisionTable (some (clocOf l)) (some r), some (crotOf r)) := by
  simp [deriveJointType, hM, scan_append_two xs l r hl hr]

/-- The decision table classifies the synthesized revolute pair as revolute
whenever the limit range is not the degenerate pair (0, 0). -/
lemma decisionTable_revolute (lower upper : ℚ) (h : lower ≠ 0 ∨ upper ≠ 0) :
    decisionTable (some (clocOf revoluteLoc)) (some (revoluteRot lower upper)) = "revolute" := by
  simp [decisionTable, clocOf, crotOf, cnt3, revoluteLoc, revoluteRot]
  tauto

/-- The decision table classifies the synthesized continuous pair as
continuous. -/
lemma decisionTable_continuous :
    decisionTable (some (clocOf continuousLoc)) (some continuousRot) = "continuous" := by decide

/-- The decision table classifies the synthesized prismatic pair as
prismatic, for both branches of the bound installation. -/
lemma decisionTable_prismatic (lower upper : ℚ) :
    decisionTable (some (clocOf (prismaticLoc lower upper))) (some prismaticRot)
      = "prismatic" := by
  by_cases h : lower = upper <;>
    simp [decisionTable, clocOf, crotOf, cnt3, prismaticLoc, prismaticRot, h]

/-- The type tag of the synthesized prismatic location constraint, for
both branches of the bound installation. -/
lemma prismaticLoc_ctype (lower upper : ℚ) :
    (prismaticLoc lower upper).ctype = "LIMIT_LOCATION" := by
  by_cases h : lower = upper <;> simp [prismaticLoc, h]

/-- The decision table classifies the synthesized fixed pair as fixed. -/
lemma decisionTable_fixed :
    decisionTable (some (clocOf fixedLoc)) (some fixedRot) = "fixed" := by decide

/-- For a known non floating type, synthesis appends exactly the per type
constraint pair after the removal loop. -/
lemma setJointConstraints_constraints_known (L : Link) (hp : L.phobostype = "link")
    (lower upper : ℚ) :
    ((setJointConstraints L "revolute" lower upper).constraints
        = removeLoop L.constraints ++ [revoluteLoc, revoluteRot lower upper])
    ∧ ((setJointConstraints L "continuous" lower upper).constraints
        = removeLoop L.constraints ++ [continuousLoc, continuousRot])
    ∧ ((setJointConstraints L "prismatic" lower upper).constraints
        = removeLoop L.constraints ++ [prismaticLoc lower upper, prismaticRot])
    ∧ ((setJointConstraints L "fixed" lower upper).constraints
        = removeLoop L.constraints ++ [fixedLoc, fixedRot]) := by
  refine ⟨?_, ?_, ?_, ?_⟩ <;> simp [setJointConstraints, hp]

/-- For a type outside the dispatch list, synthesis appends nothing: the
resulting collection is exactly the output of the removal loop. -/
lemma setJointConstraints_constraints_unknown (L : Link) (jt : String)
    (lower upper : ℚ) (h : jt ∉ knownJointTypes) :
    (setJointConstraints L jt lower upper).constraints = removeLoop L.constraints := by
  simp only [knownJointTypes, List.mem_cons, List.not_mem_nil, or_false, not_or] at h
  obtain ⟨h1, h2, h3, h4, h5, h6⟩ := h
  by_cases hp : L.phobostype = "link" <;>
    simp [setJointConstraints, hp, h1, h2, h3, h4, h5, h6]

/-- Synthesis only writes the joint type key of the metadata store: any
other key keeps its value. -/
lemma setJointConstraints_getMeta_ne (L : Link) (jt : String) (lower upper : ℚ)
    (k : String) (hk : k ≠ "joint/type") :
    getMeta (setJointConstraints L jt lower upper).meta k = getMeta L.meta k := by
  by_cases hp : L.phobostype = "link" <;>
    simp [setJointConstraints, hp, getMeta_setMeta_ne _ _ _ _ hk]

/-! ### Claims -/

/-- C1, corrected.  For every link of phobostype link, every joint type T
among revolute, continuous, prismatic and fixed and all bounds with
lower ≤ upper, synthesizing T and re-classifying yields T, except in the
one excluded corner: a revolute joint synthesized with lower = upper = 0
produces a rotation constraint whose y range is the degenerate pair (0, 0),
which the classifier reads as fixed.  The exclusion is exactly what the
counterexample forces. -/
theorem classify_after_synthesize (L : Link) (T : String) (lower upper : ℚ)
    (hp : L.phobostype = "link")
    (hT : T ∈ ["revolute", "continuous", "prismatic", "fixed"])
    (hle : lower ≤ upper)
    (hrev : T = "revolute" → lower ≠ 0 ∨ upper ≠ 0) :
    (deriveJointType (setJointConstraints L T lower upper)).1 = T := by
  have hk := setJointConstraints_constraints_known L hp lower upper
  simp only [List.mem_cons, List.not_mem_nil, or_false] at hT
  rcases hT with h | h | h | h <;> subst h
  · rw [deriveJointType_of_append _ _ _ _ hk.1 rfl rfl]
    exact decisionTable_revolute lower upper (hrev rfl)
  · rw [deriveJointType_of_append _ _ _ _ hk.2.1 rfl rfl]
    exact decisionTable_continuous
  · rw [deriveJointType_of_append _ _ _ _ hk.2.2.1 (prismaticLoc_ctype lower upper) rfl]
    exact decisionTable_prismatic lower upper
  · rw [deriveJointType_of_append _ _ _ _ hk.2.2.2 rfl rfl]
    exact decisionTable_fixed

/-- C1, witness for the amended theorem at a concrete input. -/
theorem classify_after_synthesize_witness :
    (deriveJointType (setJointConstraints L0 "revolute" 0 1)).1 = "revolute" :=
  classify_after_synthesize L0 "revolute" 0 1 rfl (by decide) (by decide)
    (fun _ => Or.inr (by decide))

/-- C1, counterexample to the claim as stated: at the admissible input
T = revolute, lower = upper = 0, re-classification yields fixed, not
revolute. -/
theorem classify_revolute_zero_zero_gives_fixed :
    (0 : ℚ) ≤ 0
    ∧ (deriveJointType (setJointConstraints L0 "revolute" 0 0)).1 = "fixed"
    ∧ (deriveJointType (setJointConstraints L0 "revolute" 0 0)).1 ≠ "revolute" := by decide

/-- C2, code bug, evaluated at the failing input.  After synthesizing a
prismatic joint with limits (-0.1, 0.1) on a fresh link, getJointConstraints
returns the normalized bone direction as axis but the limit pair (0, 0):
the freeloc chain of joints.py lines 115 to 120 reads the bounds of the
first axis marked in freeloc, which is the doubly bounded x axis locked at
0, instead of the bounds (-0.1, 0.1) of the translating y axis that the
claim (and the spec) names. -/
theorem prismatic_extraction_returns_locked_axis_bounds :
    getJointConstraints (setJointConstraints L0 "prismatic" negOneTenth oneTenth)
      = .ok (some (Axis.boneNormalized ⟨0, 1, 0⟩)) (some [0, 0])
    ∧ negOneTenth = -(1 / 10 : ℚ) ∧ oneTenth = (1 / 10 : ℚ)
    ∧ (0 : ℚ) ≠ negOneTenth :=
  ⟨by decide, negOneTenth_eq, oneTenth_eq, by decide⟩

/-- C3, code bug, evaluated at the failing input.  Running synthesis twice
with identical arguments on a fresh link is not idempotent: the removal
loop of joints.py lines 147 and 148 removes entries of the live collection
while iterating it by index, so it deletes only every other entry; the
second run therefore keeps the rotation constraint installed by the first
run and ends with three constraints instead of two. -/
theorem synthesize_twice_not_idempotent :
    (setJointConstraints (setJointConstraints L0 "revolute" 0 1) "revolute" 0 1).constraints
      = [revoluteRot 0 1, revoluteLoc, revoluteRot 0 1]
    ∧ (setJointConstraints L0 "revolute" 0 1).constraints = [revoluteLoc, revoluteRot 0 1]
    ∧ setJointConstraints (setJointConstraints L0 "revolute" 0 1) "revolute" 0 1
        ≠ setJointConstraints L0 "revolute" 0 1 := by decide

/-- C4, counterexample to the claim as stated: a location constraint whose
x axis has equal bounds with the minimum bound active and the maximum bound
inactive is counted as locked by deriveJointType (its locked count becomes
1 and the link classifies as planar), whereas under the claim the axis
would not be locked, the locked count would be 0 and the decision table
would fall through to floating. -/
theorem locked_count_ignores_max_flag_cex :
    minOnlyLockedX.use_min_x = true
    ∧ minOnlyLockedX.use_max_x = false
    ∧ minOnlyLockedX.min_x = minOnlyLockedX.max_x
    ∧ (deriveJointType LminOnly).1 = "planar"
    ∧ (deriveJointType LminOnly).1 ≠ "floating" := by decide

/-- C4, amended.  In deriveJointType a translation axis is counted as
locked exactly when its minimum bound is active and the minimum equals the
maximum; the activity of the maximum bound is not consulted (joints.py
lines 56 to 58).  In particular an x axis with equal bounds and only the
minimum bound active is counted, making a link with such a single
constraint classify as planar whatever the value of the maximum flag. -/
theorem derive_counts_min_only_axis_as_locked (L : Link) (c : Constraint)
    (hcs : L.constraints = [c]) (ht : c.ctype = "LIMIT_LOCATION")
    (hx : c.use_min_x = true) (hq : c.min_x = c.max_x)
    (hy : (c.use_min_y && decide (c.min_y = c.max_y)) = false)
    (hz : (c.use_min_z && decide (c.min_z = c.max_z)) = false) :
    (deriveJointType L).1 = "planar" := by
  simp [deriveJointType, hcs, scanStep, ht, decisionTable, clocOf, cnt3, hx, hq, hy, hz]

/-- C4, witness for the amended theorem at a concrete input. -/
theorem derive_counts_min_only_axis_as_locked_witness :
    (deriveJointType LminOnly).1 = "planar" :=
  derive_counts_min_only_axis_as_locked LminOnly minOnlyLockedX (by decide) (by decide)
    (by decide) (by decide) (by decide) (by decide)

/-- C5, counterexample to the claim as stated: a freshly synthesized
continuous joint classifies as continuous with all three rotation lock
flags clear, and getJointConstraints does not fail: it returns the
normalized bone direction as axis together with absent limits, so axis and
limits are not both present or both absent. -/
theorem continuous_no_flags_returns_axis_without_limits :
    deriveJointType (setJointConstraints L0 "continuous" 0 0)
      = ("continuous", some (false, false, false))
    ∧ getJointConstraints (setJointConstraints L0 "continuous" 0 0)
      = .ok (some (Axis.boneNormalized ⟨0, 1, 0⟩)) none := by decide

/-- C5, amended.  For every link classified as continuous with no rotation
lock flag set, getJointConstraints succeeds and returns the normalized bone
direction with limits absent: the truthiness test of joints.py line 93 is
passed by any flag list, so the error branch is not reached and only the
limits stay unpopulated. -/
theorem continuous_no_flags_ok (L : Link)
    (h1 : (deriveJointType L).1 = "continuous")
    (h2 : (deriveJointType L).2 = some (false, false, false)) :
    getJointConstraints L = .ok (some (Axis.boneNormalized L.boneVector)) none := by
  have h2' : ((L.constraints.foldl scanStep (none, none)).2).map crotOf
      = some (false, false, false) := h2
  obtain ⟨lr, hlr, hcr⟩ := Option.map_eq_some'.mp h2'
  have hget : getJointConstraint L "LIMIT_ROTATION" = some lr := by
    unfold getJointConstraint
    rw [← scan_snd L.constraints none none, hlr]
  simp [getJointConstraints, h1, h2, hget]

/-- C5, witness for the amended theorem at a concrete input. -/
theorem continuous_no_flags_ok_witness :
    getJointConstraints (setJointConstraints L0 "continuous" 0 0)
      = .ok (some (Axis.boneNormalized (setJointConstraints L0 "continuous" 0 0).boneVector))
        none :=
  continuous_no_flags_ok (setJointConstraints L0 "continuous" 0 0) (by decide) (by decide)

/-- C6, confirmed.  For a link classified as planar, extraction requires
exactly one marked translation axis in the freeloc sense of the source
(both bounds active with equal values) and raises the under defined
constraints error otherwise; on success the axis is the unit vector along
that one axis and the limits are the bound pairs of the other two axes,
concatenated in the order stated by the claim. -/
theorem planar_extraction_correct (L : Link) (c : Constraint)
    (hjt : (deriveJointType L).1 = "planar")
    (hc : getJointConstraint L "LIMIT_LOCATION" = some c) :
    (cnt3 (freelocOf c) = 1 →
      getJointConstraints L
        = .ok (some (Axis.unit ⟨boolToQ (freelocOf c).1, boolToQ (freelocOf c).2.1,
              boolToQ (freelocOf c).2.2⟩))
            (some (if (freelocOf c).1 = true then [c.min_y, c.max_y, c.min_z, c.max_z]
                   else if (freelocOf c).2.1 = true then [c.min_x, c.max_x, c.min_z, c.max_z]
                   else [c.min_x, c.max_x, c.min_y, c.max_y])))
    ∧ (cnt3 (freelocOf c) ≠ 1 →
      getJointConstraints L
        = .error ("JointTypeError: under-defined constraints in joint ("
            ++ L.name ++ ").")) := by
  constructor
  · intro h1
    rcases hfl : freelocOf c with ⟨f1, f2, f3⟩
    rw [hfl] at h1
    cases f1 <;> cases f2 <;> cases f3 <;>
      simp_all [getJointConstraints, cnt3, boolToQ]
  · intro h1
    simp [getJointConstraints, hjt, hc, h1]

/-- C6, witness at a concrete input: the synthesized planar joint has its
y axis marked, so the extracted axis is the y unit vector and the limits
are the bound pairs of the x and z axes. -/
theorem planar_extraction_correct_witness :
    getJointConstraints (setJointConstraints L0 "planar" 0 0)
      = .ok (some (Axis.unit ⟨0, 1, 0⟩)) (some [0, 0, 0, 0]) := by
  have h := (planar_extraction_correct (setJointConstraints L0 "planar" 0 0) planarLoc
    (by decide) (by decide)).1 (by decide)
  rw [h]
  decide

/-- C7, confirmed.  When the joint type input of the batch joint operator
is fixed, every link produced by the batch keeps the values stored under
joint/maxeffort and joint/maxvelocity of the corresponding selected link:
those keys are never written, whatever the effort and velocity inputs, the
passive flag, the degree flag and the link contents are. -/
theorem fixed_joint_never_writes_effort_velocity (inp : DefineJointConstraintsInput)
    (hfix : inp.joint_type = "fixed") (links : List Link) (L' : Link)
    (hmem : L' ∈ defineJointConstraintsExecute inp links) :
    ∃ L ∈ links,
      getMeta L'.meta "joint/maxeffort" = getMeta L.meta "joint/maxeffort"
      ∧ getMeta L'.meta "joint/maxvelocity" = getMeta L.meta "joint/maxvelocity" := by
  rcases List.mem_map.mp hmem with ⟨L, hL, rfl⟩
  refine ⟨L, hL, ?_, ?_⟩ <;>
    · simp only [defineJointConstraintsOnLink, hfix, ne_eq, not_true_eq_false, if_false]
      by_cases hpass : inp.passive <;>
        simp [hpass, getMeta_setMeta_ne, setJointConstraints_getMeta_ne]

/-- C7, witness at a concrete input with nonzero effort and velocity
inputs. -/
theorem fixed_joint_never_writes_effort_velocity_witness :
    fixedInp.joint_type = "fixed"
    ∧ ∃ L ∈ [L0],
        getMeta (defineJointConstraintsOnLink fixedInp L0).meta "joint/maxeffort"
          = getMeta L.meta "joint/maxeffort"
        ∧ getMeta (defineJointConstraintsOnLink fixedInp L0).meta "joint/maxvelocity"
          = getMeta L.meta "joint/maxvelocity" :=
  ⟨rfl, fixed_joint_never_writes_effort_velocity fixedInp rfl [L0] _
    (by simp [defineJointConstraintsExecute])⟩

/-- C8, confirmed.  Attaching a motor to a link of phobostype link stores
motor/maxSpeed as vmax times 2 times pi (the rpm named input times two pi,
with pi the exact value of the double math.pi), stores motor/maxEffort as
taumax verbatim, and writes the three gain keys exactly when the motor
type is PID, each gain copied verbatim; for vmax = 1 the stored speed is
within 0.00001 of 6.28319. -/
theorem attach_motor_writes_records (inp : AttachMotorInput) (joint : Link)
    (hp : joint.phobostype = "link") :
    getMeta (attachMotorOnLink inp joint).meta "motor/maxSpeed"
        = some (MVal.q (inp.vmax * 2 * pythonPi))
    ∧ getMeta (attachMotorOnLink inp joint).meta "motor/maxEffort" = some (MVal.q inp.taumax)
    ∧ (inp.motortype = "PID" →
        getMeta (attachMotorOnLink inp joint).meta "motor/p" = some (MVal.q inp.P)
        ∧ getMeta (attachMotorOnLink inp joint).meta "motor/i" = some (MVal.q inp.I)
        ∧ getMeta (attachMotorOnLink inp joint).meta "motor/d" = some (MVal.q inp.D))
    ∧ (inp.motortype ≠ "PID" →
        getMeta (attachMotorOnLink inp joint).meta "motor/p" = getMeta joint.meta "motor/p"
        ∧ getMeta (attachMotorOnLink inp joint).meta "motor/i" = getMeta joint.meta "motor/i"
        ∧ getMeta (attachMotorOnLink inp joint).meta "motor/d" = getMeta joint.meta "motor/d")
    ∧ (inp.vmax = 1 → |inp.vmax * 2 * pythonPi - 628319 / 100000| < 1 / 100000) := by
  refine ⟨?_, ?_, ?_, ?_, ?_⟩
  · simp [attachMotorOnLink, hp, getMeta_setMeta_ne, getMeta_setMeta_self]
  · simp [attachMotorOnLink, hp, getMeta_setMeta_ne, getMeta_setMeta_self]
  · intro hpid
    refine ⟨?_, ?_, ?_⟩ <;>
      simp [attachMotorOnLink, hp, hpid, getMeta_setMeta_ne, getMeta_setMeta_self]
  · intro hpid
    refine ⟨?_, ?_, ?_⟩ <;>
      simp [attachMotorOnLink, hp, hpid, getMeta_setMeta_ne]
  · intro hv
    rw [hv, pythonPi]
    rw [abs_lt]
    norm_num

/-- C8, witness at the concrete inputs of the claim: vmax 1, taumax 2,
motor type PID. -/
theorem attach_motor_writes_records_witness :
    L0.phobostype = "link"
    ∧ getMeta (attachMotorOnLink motorInp L0).meta "motor/maxSpeed"
        = some (MVal.q (motorInp.vmax * 2 * pythonPi))
    ∧ getMeta (attachMotorOnLink motorInp L0).meta "motor/maxEffort"
        = some (MVal.q motorInp.taumax) :=
  ⟨rfl, (attach_motor_writes_records motorInp L0 rfl).1,
    (attach_motor_writes_records motorInp L0 rfl).2.1⟩

/-- C9, confirmed.  For a joint type outside the dispatch list, synthesis
installs no constraints: the resulting collection is exactly the output of
the removal loop, hence a sublist of the original collection with nothing
appended.  The embedded function is total, mirroring that the source only
prints an error message and raises no exception on this path. -/
theorem unknown_type_installs_no_constraints (L : Link) (jt : String) (lower upper : ℚ)
    (h : jt ∉ knownJointTypes) :
    (setJointConstraints L jt lower upper).constraints = removeLoop L.constraints
    ∧ ((setJointConstraints L jt lower upper).constraints).Sublist L.constraints := by
  have hc := setJointConstraints_constraints_unknown L jt lower upper h
  exact ⟨hc, hc ▸ removeLoop_sublist L.constraints⟩

/-- C9, witness at a concrete unknown type. -/
theorem unknown_type_installs_no_constraints_witness :
    "spherical" ∉ knownJointTypes
    ∧ ((setJointConstraints L0 "spherical" 0 0).constraints = removeLoop L0.constraints
       ∧ ((setJointConstraints L0 "spherical" 0 0).constraints).Sublist L0.constraints) :=
  ⟨by decide, unknown_type_installs_no_constraints L0 "spherical" 0 0 (by decide)⟩

/-- C10, counterexample to the claim as stated: on a link holding the two
constraints of a previously synthesized revolute joint, a call with an
unknown type removes only the first pre-existing constraint; the rotation
constraint of the earlier synthesis survives the removal loop, so the pre
existing constraints are not all removed. -/
theorem unknown_type_leaves_second_constraint :
    Lrev.constraints = [revoluteLoc, revoluteRot 0 1]
    ∧ (setJointConstraints Lrev "spherical" 0 0).constraints = [revoluteRot 0 1]
    ∧ revoluteRot 0 1 ∈ Lrev.constraints := by decide

/-- C10, amended.  On a link of phobostype link, a call with an unknown
joint type still mutates the link: the stored joint type metadata is
overwritten with the unknown string, and the removal loop runs before the
dispatch, leaving exactly its output as the constraint collection; when
any constraint existed the collection strictly shrinks (the loop removes
the entries at even iteration positions, i.e. every other one, because it
removes from the live collection while iterating it). -/
theorem unknown_type_still_mutates_link (L : Link) (jt : String) (lower upper : ℚ)
    (hp : L.phobostype = "link") (h : jt ∉ knownJointTypes) :
    getMeta (setJointConstraints L jt lower upper).meta "joint/type" = some (MVal.s jt)
    ∧ (setJointConstraints L jt lower upper).constraints = removeLoop L.constraints
    ∧ (L.constraints ≠ [] →
        (setJointConstraints L jt lower upper).constraints.length
          < L.constraints.length) := by
  have hc := setJointConstraints_constraints_unknown L jt lower upper h
  refine ⟨?_, hc, fun hne => ?_⟩
  · simp [setJointConstraints, hp, getMeta_setMeta_self]
  · rw [hc]
    exact removeLoop_length_lt L.constraints hne

/-- C10, witness at a concrete input: a previously synthesized revolute
link and a concrete unknown type string. -/
theorem unknown_type_still_mutates_link_witness :
    Lrev.phobostype = "link"
    ∧ "spherical" ∉ knownJointTypes
    ∧ (getMeta (setJointConstraints Lrev "spherical" 0 0).meta "joint/type"
          = some (MVal.s "spherical")
       ∧ (setJointConstraints Lrev "spherical" 0 0).constraints = removeLoop Lrev.constraints
       ∧ (Lrev.constraints ≠ [] →
           (setJointConstraints Lrev "spherical" 0 0).constraints.length
             < Lrev.constraints.length)) :=
  ⟨by decide, by decide,
    unknown_type_still_mutates_link Lrev "spherical" 0 0 (by decide) (by decide)⟩

end Phobos
